import Mathlib

/-!
Shallow embedding of the gesture classifier and the gesture-hold debouncer of
`src/src/V8.py` (class `HandyCodesApp`), together with theorems settling the
claims about them.

Conventions of the embedding:
* landmark coordinates and timestamps are rationals (the Python code works on
  floats coming from the vision model and from `time.time()`; only order and
  difference comparisons are performed on them);
* a gesture label is a `String`, exactly the strings used by the source; the
  absence of a gesture (`None` in Python) is `Option.none`;
* the three `time.time()` calls inside one `process_gesture` invocation are
  modelled as a single timestamp `now` for that update;
* the external code evaluator (`exec` with captured stdout) and the Tk status
  messages are external collaborators (spec section 6) and are not part of the
  embedded state; the fields of `AppState` are exactly the `__init__` fields
  that the debouncer and dispatcher read or write.
-/

namespace HandyCodes

/-- `self.gesture_hold_time = 0.3` from `HandyCodesApp.__init__`. -/
def gesture_hold_time : ℚ := 3/10

/-- `self.gesture_cooldown = 1.0` from `HandyCodesApp.__init__`. -/
def gesture_cooldown : ℚ := 1

/-- `self.gesture_code_mapping` from `HandyCodesApp.__init__`: the static
table from gesture label to literal code snippet. Membership test models the
Python `gesture in self.gesture_code_mapping`. -/
def gesture_code_mapping (g : String) : Option String :=
  if g = "open_palm" then some "print(\"Hello World\")"
  else if g = "thumbs_up" then some "x = 10\nprint(\"Variable x set to\", x)"
  else if g = "victory" then some "x = 10\nif x > 5:\n    print(\"x is greater than 5\")"
  else if g = "pointing_index" then some "for i in range(5):\n    print(\"Loop iteration\", i)"
  else if g = "fist" then some "print(\"Fist detected - Stopping execution\")"
  else if g = "three_fingers" then some "def greet(name):\n    print(f\"Hello, \x7bname\x7d!\")\n\ngreet(\"User\")"
  else none

/-! ### Gesture classifier (`HandyCodesApp.recognize_gesture`) -/

/-- The guarded y-coordinate read
`landmarks[i][1] if len(landmarks) > i else 0`
used for every tip and pip position in `recognize_gesture`. -/
def yAt (landmarks : List (ℚ × ℚ)) (i : Nat) : ℚ :=
  if landmarks.length > i then (landmarks.getD i (0, 0)).2 else 0

/-- `thumb_extended = landmarks[4][0] > landmarks[3][0] if landmarks[4][0] > landmarks[2][0] else False`,
wrapped in `try ... except (IndexError, TypeError): thumb_extended = False`.
The `do` block returns `none` exactly when one of the raw list accesses would
raise `IndexError`; `Option.getD false` is the except handler. -/
def thumb_extended (landmarks : List (ℚ × ℚ)) : Bool :=
  (do
    let p4 ← landmarks.get? 4
    let p3 ← landmarks.get? 3
    let p2 ← landmarks.get? 2
    pure (if p4.1 > p2.1 then decide (p4.1 > p3.1) else false) : Option Bool).getD false

/-- `index_extended = index_tip < index_pip` (tip y-coordinate strictly below
the pip y-coordinate numerically); the surrounding `try` cannot raise because
both operands are the guarded reads. -/
def index_extended (landmarks : List (ℚ × ℚ)) : Bool :=
  decide (yAt landmarks 8 < yAt landmarks 6)

/-- `middle_extended = middle_tip < middle_pip`. -/
def middle_extended (landmarks : List (ℚ × ℚ)) : Bool :=
  decide (yAt landmarks 12 < yAt landmarks 10)

/-- `ring_extended = ring_tip < ring_pip`. -/
def ring_extended (landmarks : List (ℚ × ℚ)) : Bool :=
  decide (yAt landmarks 16 < yAt landmarks 14)

/-- `pinky_extended = pinky_tip < pinky_pip`. -/
def pinky_extended (landmarks : List (ℚ × ℚ)) : Bool :=
  decide (yAt landmarks 20 < yAt landmarks 18)

/-- `num_extended = sum(extended_fingers)`: number of `True` entries of
`[thumb_extended, index_extended, middle_extended, ring_extended, pinky_extended]`. -/
def num_extended (landmarks : List (ℚ × ℚ)) : Nat :=
  List.count true [thumb_extended landmarks, index_extended landmarks,
    middle_extended landmarks, ring_extended landmarks, pinky_extended landmarks]

/-- `HandyCodesApp.recognize_gesture`: the length guard followed by the
first-match decision chain of the source. -/
def recognize_gesture (landmarks : List (ℚ × ℚ)) : Option String :=
  if landmarks.length < 21 then none
  else if num_extended landmarks = 5 then some "open_palm"
  else if num_extended landmarks = 0 then some "fist"
  else if num_extended landmarks = 3 then some "three_fingers"
  else if index_extended landmarks &&
      !(middle_extended landmarks || ring_extended landmarks || pinky_extended landmarks) then
    some "pointing_index"
  else if index_extended landmarks && middle_extended landmarks &&
      !(ring_extended landmarks || pinky_extended landmarks) then
    some "victory"
  else if thumb_extended landmarks &&
      !(index_extended landmarks || middle_extended landmarks ||
        ring_extended landmarks || pinky_extended landmarks) then
    some "thumbs_up"
  else none

/-! ### Gesture-hold debouncer (`HandyCodesApp.process_gesture`) -/

/-- The `__init__` fields read or written by `process_gesture` and the code
dispatcher. `execution_output` and the status text are driven by the external
evaluator and UI and are outside the embedding. -/
structure AppState where
  last_detected_gesture : Option String
  gesture_start_time : Option ℚ
  last_executed_time : ℚ
  generated_code : String
  displayed_gesture : String
deriving DecidableEq

/-- The state set up by `HandyCodesApp.__init__` when `time.time()` at
initialization returns `t0`: `generated_code = ""`,
`last_executed_time = time.time()`, `last_detected_gesture = None`,
`gesture_start_time = None`, `displayed_gesture = ""`. -/
def initState (t0 : ℚ) : AppState :=
  { last_detected_gesture := none
    gesture_start_time := none
    last_executed_time := t0
    generated_code := ""
    displayed_gesture := "" }

/-- `HandyCodesApp.process_gesture(gesture)` at wall-clock time `now`,
returning the new state and whether the snippet action fired (the branch that
appends and executes the mapped code). The `none` case of
`gesture_start_time` models the `TypeError` a subtraction from `None` would
raise, which the enclosing `except` swallows leaving the state unchanged; it
is unreachable from the initial state because the first update always takes
the reset branch. -/
def process_gesture (gesture : String) (now : ℚ) (s : AppState) : AppState × Bool :=
  if some gesture ≠ s.last_detected_gesture then
    ({ s with gesture_start_time := some now, last_detected_gesture := some gesture }, false)
  else
    match s.gesture_start_time with
    | none => (s, false)
    | some st =>
      if now - st ≥ gesture_hold_time then
        if now - s.last_executed_time > gesture_cooldown then
          match gesture_code_mapping gesture with
          | some code =>
            ({ s with displayed_gesture := gesture
                      generated_code := s.generated_code ++ code ++ "\n"
                      last_executed_time := now }, true)
          | none => ({ s with displayed_gesture := gesture }, false)
        else (s, false)
      else (s, false)

/-- One camera-loop step of `HandyCodesApp.run` after classification: the
guard `if gesture: self.process_gesture(gesture)` calls the debouncer only
for a truthy label (non-`None` and non-empty). -/
def handleFrame (gesture : Option String) (now : ℚ) (s : AppState) : AppState × Bool :=
  match gesture with
  | some g => if g = "" then (s, false) else process_gesture g now s
  | none => (s, false)

/-! ### Trace semantics for the debouncer

An update stream is a pair of functions `lab : Nat → String` (the labels that
reach `process_gesture`) and `tm : Nat → ℚ` (their timestamps); every finite
update sequence is a prefix of such a stream. -/

/-- State after the first `k` updates of the stream, starting from
`initState t0`. -/
def stateAt (t0 : ℚ) (lab : Nat → String) (tm : Nat → ℚ) : Nat → AppState
  | 0 => initState t0
  | Nat.succ k => (process_gesture (lab k) (tm k) (stateAt t0 lab tm k)).1

/-- Whether update `k` of the stream fires. -/
def firesAt (t0 : ℚ) (lab : Nat → String) (tm : Nat → ℚ) (k : Nat) : Bool :=
  (process_gesture (lab k) (tm k) (stateAt t0 lab tm k)).2

/-! ### Basic lemmas about the classifier -/

lemma get?_eq_some_getD {α : Type} (l : List α) (i : Nat) (d : α) (h : i < l.length) :
    l.get? i = some (l.getD i d) := by
  rw [List.get?_eq_getElem?, List.getElem?_eq_getElem h, List.getD_eq_getElem l d h]

/-- A 21-point input with exactly the thumb and the index finger extended:
thumb tip x beyond both the IP and MCP x, index tip above its pip, and each
of middle, ring, pinky tip below its pip. -/
def thumbIndexInput : List (ℚ × ℚ) :=
  [(0,0),(0,0),(0,0),(1,0),(2,0),(0,0),(0,1),(0,0),(0,0),(0,0),(0,0),
   (0,0),(0,1),(0,0),(0,0),(0,0),(0,1),(0,0),(0,0),(0,0),(0,1)]

end HandyCodes

namespace HandyCodes

/-! ### Claims about the classifier -/

/-- Claim C6: for every landmark sequence containing fewer than 21 elements,
the classifier returns no gesture (and, being a total function, does not
raise). -/
theorem classify_short_input_none (l : List (ℚ × ℚ)) (h : l.length < 21) :
    recognize_gesture l = none := by
  unfold recognize_gesture
  rw [if_pos h]

/-- Witness for C6 at the empty landmark list. -/
theorem classify_short_input_none_witness :
    recognize_gesture ([] : List (ℚ × ℚ)) = none :=
  classify_short_input_none [] (by decide)

/-- Claim C5: the classifier is total and for every input returns one of the
six defined labels or none; and an out-of-range access while computing the
thumb state (the one finger whose computation reads the raw list) yields
"not extended" instead of propagating. -/
theorem classify_total_and_defaults (l : List (ℚ × ℚ)) :
    (recognize_gesture l = none ∨ recognize_gesture l = some "open_palm" ∨
     recognize_gesture l = some "fist" ∨ recognize_gesture l = some "three_fingers" ∨
     recognize_gesture l = some "pointing_index" ∨ recognize_gesture l = some "victory" ∨
     recognize_gesture l = some "thumbs_up") ∧
    (l.get? 4 = none → thumb_extended l = false) := by
  constructor
  · unfold recognize_gesture
    split_ifs <;> simp
  · intro h4
    unfold thumb_extended
    rw [h4]
    rfl

/-- Witness for C5 at the empty landmark list, discharging the out-of-range
hypothesis there. -/
theorem classify_total_and_defaults_witness :
    (recognize_gesture ([] : List (ℚ × ℚ)) = none ∨
     recognize_gesture ([] : List (ℚ × ℚ)) = some "open_palm" ∨
     recognize_gesture ([] : List (ℚ × ℚ)) = some "fist" ∨
     recognize_gesture ([] : List (ℚ × ℚ)) = some "three_fingers" ∨
     recognize_gesture ([] : List (ℚ × ℚ)) = some "pointing_index" ∨
     recognize_gesture ([] : List (ℚ × ℚ)) = some "victory" ∨
     recognize_gesture ([] : List (ℚ × ℚ)) = some "thumbs_up") ∧
    thumb_extended ([] : List (ℚ × ℚ)) = false :=
  ⟨(classify_total_and_defaults []).1, (classify_total_and_defaults []).2 rfl⟩

/-- Claim C7: on a valid 21-point input the per-finger extension booleans are:
thumb extended iff tip x exceeds both the IP joint x and the MCP joint x;
each other finger extended iff its tip y is strictly less than its pip y. -/
theorem finger_extension_rules (l : List (ℚ × ℚ)) (h : 21 ≤ l.length) :
    (thumb_extended l = true ↔
      ((l.getD 4 (0,0)).1 > (l.getD 3 (0,0)).1 ∧ (l.getD 4 (0,0)).1 > (l.getD 2 (0,0)).1)) ∧
    (index_extended l = true ↔ (l.getD 8 (0,0)).2 < (l.getD 6 (0,0)).2) ∧
    (middle_extended l = true ↔ (l.getD 12 (0,0)).2 < (l.getD 10 (0,0)).2) ∧
    (ring_extended l = true ↔ (l.getD 16 (0,0)).2 < (l.getD 14 (0,0)).2) ∧
    (pinky_extended l = true ↔ (l.getD 20 (0,0)).2 < (l.getD 18 (0,0)).2) := by
  refine ⟨?_, ?_, ?_, ?_, ?_⟩
  · unfold thumb_extended
    rw [get?_eq_some_getD l 4 (0,0) (by omega), get?_eq_some_getD l 3 (0,0) (by omega),
      get?_eq_some_getD l 2 (0,0) (by omega)]
    simp only [Option.bind_eq_bind, Option.some_bind, Option.pure_def, Option.getD_some]
    split_ifs with hmcp
    · rw [decide_eq_true_iff]
      exact ⟨fun h3 => ⟨h3, hmcp⟩, fun hh => hh.1⟩
    · simp only [Bool.false_eq_true, false_iff]
      exact fun hh => hmcp hh.2
  · unfold index_extended yAt
    rw [if_pos (show l.length > 8 by omega), if_pos (show l.length > 6 by omega)]
    exact decide_eq_true_iff
  · unfold middle_extended yAt
    rw [if_pos (show l.length > 12 by omega), if_pos (show l.length > 10 by omega)]
    exact decide_eq_true_iff
  · unfold ring_extended yAt
    rw [if_pos (show l.length > 16 by omega), if_pos (show l.length > 14 by omega)]
    exact decide_eq_true_iff
  · unfold pinky_extended yAt
    rw [if_pos (show l.length > 20 by omega), if_pos (show l.length > 18 by omega)]
    exact decide_eq_true_iff

/-- Witness for C7 on a concrete 21-point input. -/
theorem finger_extension_rules_witness :
    (thumb_extended thumbIndexInput = true ↔
      ((thumbIndexInput.getD 4 (0,0)).1 > (thumbIndexInput.getD 3 (0,0)).1 ∧
       (thumbIndexInput.getD 4 (0,0)).1 > (thumbIndexInput.getD 2 (0,0)).1)) ∧
    (index_extended thumbIndexInput = true ↔
      (thumbIndexInput.getD 8 (0,0)).2 < (thumbIndexInput.getD 6 (0,0)).2) ∧
    (middle_extended thumbIndexInput = true ↔
      (thumbIndexInput.getD 12 (0,0)).2 < (thumbIndexInput.getD 10 (0,0)).2) ∧
    (ring_extended thumbIndexInput = true ↔
      (thumbIndexInput.getD 16 (0,0)).2 < (thumbIndexInput.getD 14 (0,0)).2) ∧
    (pinky_extended thumbIndexInput = true ↔
      (thumbIndexInput.getD 20 (0,0)).2 < (thumbIndexInput.getD 18 (0,0)).2) :=
  finger_extension_rules thumbIndexInput (by decide)

/-- Counterexample to claim C3: on a valid 21-point input with exactly the
thumb and the index finger extended, the classifier does not return none: the
pointing rule, which ignores the thumb, matches first and yields
`pointing_index`. -/
theorem thumb_index_not_none :
    thumb_extended thumbIndexInput = true ∧ index_extended thumbIndexInput = true ∧
    middle_extended thumbIndexInput = false ∧ ring_extended thumbIndexInput = false ∧
    pinky_extended thumbIndexInput = false ∧ num_extended thumbIndexInput = 2 ∧
    recognize_gesture thumbIndexInput = some "pointing_index" ∧
    recognize_gesture thumbIndexInput ≠ none := by
  refine ⟨by decide, by decide, by decide, by decide, by decide, by decide, by decide, ?_⟩
  intro hc
  exact Option.noConfusion ((by decide : recognize_gesture thumbIndexInput = some "pointing_index") ▸ hc)

/-- Claim C3 as amended: for every valid 21-point input in which exactly the
thumb and the index finger are extended, the classifier returns
`pointing_index` (matched by the pointing rule, which does not examine the
thumb), not none. -/
theorem thumb_index_returns_pointing (l : List (ℚ × ℚ)) (hlen : 21 ≤ l.length)
    (ht : thumb_extended l = true) (hi : index_extended l = true)
    (hm : middle_extended l = false) (hr : ring_extended l = false)
    (hp : pinky_extended l = false) :
    recognize_gesture l = some "pointing_index" := by
  unfold recognize_gesture num_extended
  rw [ht, hi, hm, hr, hp, if_neg (by omega : ¬ l.length < 21)]
  rfl

/-- Witness for the amended C3 at the concrete thumb-and-index input. -/
theorem thumb_index_returns_pointing_witness :
    recognize_gesture thumbIndexInput = some "pointing_index" :=
  thumb_index_returns_pointing thumbIndexInput (by decide) (by decide) (by decide)
    (by decide) (by decide) (by decide)

/-- The decision procedure in the words of claim C8, for comparison with the
code: first matching rule among open_palm on five extended, fist on none
extended, three_fingers on three extended, pointing_index on index alone
among the four fingers, victory on index and middle with ring and pinky
curled, thumbs_up on thumb alone, and otherwise no gesture. -/
def classifySpec (l : List (ℚ × ℚ)) : Option String :=
  if num_extended l = 5 then some "open_palm"
  else if num_extended l = 0 then some "fist"
  else if num_extended l = 3 then some "three_fingers"
  else if index_extended l = true ∧
      ¬(middle_extended l = true ∨ ring_extended l = true ∨ pinky_extended l = true) then
    some "pointing_index"
  else if (index_extended l = true ∧ middle_extended l = true) ∧
      ¬(ring_extended l = true ∨ pinky_extended l = true) then
    some "victory"
  else if thumb_extended l = true ∧
      ¬(index_extended l = true ∨ middle_extended l = true ∨
        ring_extended l = true ∨ pinky_extended l = true) then
    some "thumbs_up"
  else none

/-- Claim C8: on every valid 21-point input the classifier decides by exactly
the claimed first-match rule order. -/
theorem classify_decision_order (l : List (ℚ × ℚ)) (h : 21 ≤ l.length) :
    recognize_gesture l = classifySpec l := by
  unfold recognize_gesture classifySpec
  rw [if_neg (by omega : ¬ l.length < 21)]
  cases h1 : thumb_extended l <;> cases h2 : index_extended l <;>
    cases h3 : middle_extended l <;> cases h4 : ring_extended l <;>
      cases h5 : pinky_extended l <;>
    simp [num_extended, h1, h2, h3, h4, h5]

/-- Witness for C8 at a concrete 21-point input. -/
theorem classify_decision_order_witness :
    recognize_gesture (List.replicate 21 ((0:ℚ), (0:ℚ))) =
      classifySpec (List.replicate 21 ((0:ℚ), (0:ℚ))) :=
  classify_decision_order (List.replicate 21 ((0:ℚ), (0:ℚ))) (by decide)

/-! ### Branch lemmas for the debouncer step -/

lemma process_gesture_reset (g : String) (now : ℚ) (ld : Option String) (gs : Option ℚ)
    (le : ℚ) (gc dg : String) (h : some g ≠ ld) :
    process_gesture g now ⟨ld, gs, le, gc, dg⟩ = (⟨some g, some now, le, gc, dg⟩, false) := by
  unfold process_gesture
  rw [if_pos h]

lemma process_gesture_hold_fail (g : String) (now st : ℚ) (le : ℚ) (gc dg : String)
    (hh : ¬ now - st ≥ gesture_hold_time) :
    process_gesture g now ⟨some g, some st, le, gc, dg⟩ =
      (⟨some g, some st, le, gc, dg⟩, false) := by
  unfold process_gesture
  rw [if_neg (by simp)]
  simp only
  rw [if_neg hh]

lemma process_gesture_cool_fail (g : String) (now st : ℚ) (le : ℚ) (gc dg : String)
    (hh : now - st ≥ gesture_hold_time) (hc : ¬ now - le > gesture_cooldown) :
    process_gesture g now ⟨some g, some st, le, gc, dg⟩ =
      (⟨some g, some st, le, gc, dg⟩, false) := by
  unfold process_gesture
  rw [if_neg (by simp)]
  simp only
  rw [if_pos hh, if_neg hc]

lemma process_gesture_fire (g : String) (now st : ℚ) (le : ℚ) (gc dg : String) (code : String)
    (hh : now - st ≥ gesture_hold_time) (hc : now - le > gesture_cooldown)
    (hm : gesture_code_mapping g = some code) :
    process_gesture g now ⟨some g, some st, le, gc, dg⟩ =
      (⟨some g, some st, now, gc ++ code ++ "\n", g⟩, true) := by
  unfold process_gesture
  rw [if_neg (by simp)]
  simp only
  rw [if_pos hh, if_pos hc, hm]

/-- Any firing step has passed the same-label, hold and cooldown checks on a
mapped label. -/
lemma fire_elim (g : String) (now : ℚ) (s : AppState)
    (h : (process_gesture g now s).2 = true) :
    s.last_detected_gesture = some g ∧
    ∃ st, s.gesture_start_time = some st ∧ now - st ≥ gesture_hold_time ∧
      now - s.last_executed_time > gesture_cooldown ∧
      ∃ code, gesture_code_mapping g = some code := by
  obtain ⟨ld, gs, le, gc, dg⟩ := s
  by_cases h1 : some g = ld
  · subst h1
    cases gs with
    | none => simp [process_gesture] at h
    | some st =>
      by_cases h2 : now - st ≥ gesture_hold_time
      · by_cases h3 : now - le > gesture_cooldown
        · cases hm : gesture_code_mapping g with
          | none =>
            unfold process_gesture at h
            rw [if_neg (by simp)] at h
            simp only at h
            rw [if_pos h2, if_pos h3, hm] at h
            exact absurd h (by simp)
          | some code => exact ⟨rfl, st, rfl, h2, h3, code, rfl⟩
        · rw [process_gesture_cool_fail g now st le gc dg h2 h3] at h
          exact absurd h (by simp)
      · rw [process_gesture_hold_fail g now st le gc dg h2] at h
        exact absurd h (by simp)
  · rw [process_gesture_reset g now ld gs le gc dg h1] at h
    exact absurd h (by simp)

/-- A step that does not fire leaves `last_executed_time` unchanged. -/
lemma no_fire_keeps_last_executed (g : String) (now : ℚ) (s : AppState)
    (h : (process_gesture g now s).2 = false) :
    (process_gesture g now s).1.last_executed_time = s.last_executed_time := by
  obtain ⟨ld, gs, le, gc, dg⟩ := s
  by_cases h1 : some g = ld
  · subst h1
    cases gs with
    | none => simp [process_gesture]
    | some st =>
      unfold process_gesture at h ⊢
      rw [if_neg (by simp)] at h ⊢
      simp only at h ⊢
      by_cases h2 : now - st ≥ gesture_hold_time
      · rw [if_pos h2] at h ⊢
        by_cases h3 : now - le > gesture_cooldown
        · rw [if_pos h3] at h ⊢
          cases hm : gesture_code_mapping g with
          | none => rfl
          | some code => rw [hm] at h; simp at h
        · rw [if_neg h3] at h ⊢
      · rw [if_neg h2] at h ⊢
  · rw [process_gesture_reset g now ld gs le gc dg h1]

/-- A firing step stamps `last_executed_time` with the update time. -/
lemma fire_sets_last_executed (g : String) (now : ℚ) (s : AppState)
    (h : (process_gesture g now s).2 = true) :
    (process_gesture g now s).1.last_executed_time = now := by
  obtain ⟨hl, st, hs, hh, hc, code, hm⟩ := fire_elim g now s h
  obtain ⟨ld, gs, le, gc, dg⟩ := s
  simp only at hl hs hc
  subst hl; subst hs
  rw [process_gesture_fire g now st le gc dg code hh hc hm]

/-- A step whose label equals the held label never changes the held label or
the hold-start stamp. -/
lemma same_label_keeps_hold (g : String) (now : ℚ) (s : AppState)
    (h : s.last_detected_gesture = some g) :
    (process_gesture g now s).1.last_detected_gesture = s.last_detected_gesture ∧
    (process_gesture g now s).1.gesture_start_time = s.gesture_start_time := by
  obtain ⟨ld, gs, le, gc, dg⟩ := s
  simp only at h
  subst h
  cases gs with
  | none => simp [process_gesture]
  | some st =>
    by_cases h2 : now - st ≥ gesture_hold_time
    · by_cases h3 : now - le > gesture_cooldown
      · cases hm : gesture_code_mapping g with
        | none =>
          unfold process_gesture
          rw [if_neg (by simp)]
          simp only
          rw [if_pos h2, if_pos h3, hm]
          exact ⟨rfl, rfl⟩
        | some code =>
          rw [process_gesture_fire g now st le gc dg code h2 h3 hm]
          exact ⟨rfl, rfl⟩
      · rw [process_gesture_cool_fail g now st le gc dg h2 h3]
        exact ⟨rfl, rfl⟩
    · rw [process_gesture_hold_fail g now st le gc dg h2]
      exact ⟨rfl, rfl⟩

/-! ### Trace lemmas and the debouncer invariant -/

lemma stateAt_zero (t0 : ℚ) (lab : Nat → String) (tm : Nat → ℚ) :
    stateAt t0 lab tm 0 = initState t0 := rfl

lemma stateAt_succ (t0 : ℚ) (lab : Nat → String) (tm : Nat → ℚ) (k : Nat) :
    stateAt t0 lab tm (k+1) = (process_gesture (lab k) (tm k) (stateAt t0 lab tm k)).1 := rfl

lemma firesAt_def (t0 : ℚ) (lab : Nat → String) (tm : Nat → ℚ) (k : Nat) :
    firesAt t0 lab tm k = (process_gesture (lab k) (tm k) (stateAt t0 lab tm k)).2 := rfl

/-- The reset branch of `process_gesture` for an arbitrary state. -/
lemma process_gesture_change (g : String) (now : ℚ) (s : AppState)
    (h : some g ≠ s.last_detected_gesture) :
    process_gesture g now s =
      ({ s with gesture_start_time := some now, last_detected_gesture := some g }, false) := by
  unfold process_gesture
  rw [if_pos h]

/-- After `k+1` updates the held label is the label of the last update, and
the hold-start stamp is the timestamp of the most recent update at which the
label changed: some index `j` at which a change happened (`j = 0` counts,
since the initial held label is none) and since which every update carried
the current label. -/
lemma held_label_inv (t0 : ℚ) (lab : Nat → String) (tm : Nat → ℚ) (k : Nat) :
    (stateAt t0 lab tm (k+1)).last_detected_gesture = some (lab k) ∧
    ∃ j, j ≤ k ∧ (stateAt t0 lab tm (k+1)).gesture_start_time = some (tm j) ∧
      (∀ m, j ≤ m → m ≤ k → lab m = lab k) ∧
      (j = 0 ∨ lab (j-1) ≠ lab j) := by
  induction k with
  | zero =>
    rw [stateAt_succ, stateAt_zero,
      process_gesture_change (lab 0) (tm 0) (initState t0) (by simp [initState])]
    refine ⟨rfl, 0, Nat.le_refl 0, rfl, ?_, Or.inl rfl⟩
    intro m h1 h2
    have hm : m = 0 := Nat.le_zero.mp h2
    rw [hm]
  | succ k ih =>
    obtain ⟨hlast, j, hj, hstart, hconst, hchange⟩ := ih
    by_cases hEq : lab (k+1) = lab k
    · have hkeep := same_label_keeps_hold (lab (k+1)) (tm (k+1)) (stateAt t0 lab tm (k+1))
        (by rw [hlast, hEq])
      constructor
      · rw [stateAt_succ, hkeep.1, hlast, hEq]
      · refine ⟨j, by omega, by rw [stateAt_succ, hkeep.2, hstart], ?_, hchange⟩
        intro m h1 h2
        rcases Nat.lt_or_ge m (k+1) with hm | hm
        · rw [hconst m h1 (by omega), ← hEq]
        · have hmk : m = k+1 := by omega
          rw [hmk]
    · have hne : some (lab (k+1)) ≠ (stateAt t0 lab tm (k+1)).last_detected_gesture := by
        rw [hlast]
        simp [hEq]
      rw [stateAt_succ, process_gesture_change (lab (k+1)) (tm (k+1)) _ hne]
      refine ⟨rfl, k+1, Nat.le_refl _, rfl, ?_, Or.inr ?_⟩
      · intro m h1 h2
        have hm : m = k+1 := by omega
        rw [hm]
      · exact fun hh => hEq hh.symm

/-- With nondecreasing timestamps, `last_executed_time` is at least the
timestamp of every fire seen so far (it is stamped by the latest fire and
left alone by every non-firing step). -/
lemma last_executed_lower_bound (t0 : ℚ) (lab : Nat → String) (tm : Nat → ℚ)
    (hmono : ∀ i j : Nat, i ≤ j → tm i ≤ tm j) (k : Nat) :
    ∀ i, i < k → firesAt t0 lab tm i = true →
      tm i ≤ (stateAt t0 lab tm k).last_executed_time := by
  induction k with
  | zero => intro i h; omega
  | succ k ih =>
    intro i hik hfi
    rw [stateAt_succ]
    by_cases hf : firesAt t0 lab tm k = true
    · rw [fire_sets_last_executed (lab k) (tm k) (stateAt t0 lab tm k) hf]
      exact hmono i k (by omega)
    · have hf' : (process_gesture (lab k) (tm k) (stateAt t0 lab tm k)).2 = false := by
        rw [← firesAt_def]
        revert hf
        cases firesAt t0 lab tm k <;> simp
      rw [no_fire_keeps_last_executed (lab k) (tm k) (stateAt t0 lab tm k) hf']
      rcases Nat.lt_or_ge i k with h | h
      · exact ih i h hfi
      · have : i = k := by omega
        subst this
        exact absurd hfi hf

/-- Claim C1: along any update stream with nondecreasing timestamps, an
update fires only if the same label has been observed at every update since
the most recent label change, at least `gesture_hold_time` before now, and
strictly more than `gesture_cooldown` has elapsed since every earlier fire
(hence at most one fire in any cooldown window and no fire before the hold
has elapsed on a continuously held label). -/
theorem debouncer_fire_requires_hold_and_cooldown
    (t0 : ℚ) (lab : Nat → String) (tm : Nat → ℚ)
    (hmono : ∀ i j : Nat, i ≤ j → tm i ≤ tm j)
    (k : Nat) (hfire : firesAt t0 lab tm k = true) :
    (∃ j, j ≤ k ∧ (j = 0 ∨ lab (j-1) ≠ lab j) ∧
      (∀ m, j ≤ m → m ≤ k → lab m = lab k) ∧
      tm k - tm j ≥ gesture_hold_time) ∧
    (∀ i, i < k → firesAt t0 lab tm i = true → tm k - tm i > gesture_cooldown) := by
  obtain ⟨hlast, st, hstart, hhold, hcool, code, hm⟩ :=
    fire_elim (lab k) (tm k) (stateAt t0 lab tm k) hfire
  constructor
  · cases k with
    | zero =>
      rw [stateAt_zero] at hlast
      exact absurd hlast (by simp [initState])
    | succ k' =>
      obtain ⟨hlast', j, hj, hstart', hconst, hchange⟩ := held_label_inv t0 lab tm k'
      have hlab : lab k' = lab (k'+1) := Option.some.inj (hlast'.symm.trans hlast)
      have hst : st = tm j := Option.some.inj (hstart.symm.trans hstart')
      refine ⟨j, by omega, hchange, ?_, ?_⟩
      · intro m h1 h2
        rcases Nat.lt_or_ge m (k'+1) with hmm | hmm
        · rw [hconst m h1 (by omega), hlab]
        · have hm2 : m = k'+1 := by omega
          rw [hm2]
      · rw [← hst]
        exact hhold
  · intro i hik hfi
    have hle := last_executed_lower_bound t0 lab tm hmono k i hik hfi
    have := hcool
    unfold gesture_cooldown at this ⊢
    linarith

/-- Labels of the C1 witness stream: fist throughout. -/
def labC1 : Nat → String := fun _ => "fist"

/-- Timestamps of the C1 witness stream: 0 then 1. -/
def tmC1 : Nat → ℚ := fun k => if k = 0 then 0 else 1

/-- Witness for C1: with the app initialized at time -2 and fist fed at
times 0 and 1, the update at index 1 fires and satisfies the hold and
cooldown conditions of the theorem. -/
theorem debouncer_fire_requires_hold_and_cooldown_witness :
    firesAt (-2) labC1 tmC1 1 = true ∧
    ((∃ j, j ≤ 1 ∧ (j = 0 ∨ labC1 (j-1) ≠ labC1 j) ∧
      (∀ m, j ≤ m → m ≤ 1 → labC1 m = labC1 1) ∧
      tmC1 1 - tmC1 j ≥ gesture_hold_time) ∧
    (∀ i, i < 1 → firesAt (-2) labC1 tmC1 i = true →
      tmC1 1 - tmC1 i > gesture_cooldown)) := by
  have hmono : ∀ i j : Nat, i ≤ j → tmC1 i ≤ tmC1 j := by
    intro i j hij
    unfold tmC1
    split_ifs with h1 h2
    · norm_num
    · norm_num
    · exact absurd (by omega : i = 0) h1
    · norm_num
  have hfire : firesAt (-2) labC1 tmC1 1 = true := by
    rw [firesAt_def]
    have h1 : stateAt (-2) labC1 tmC1 1 =
        ⟨some "fist", some 0, -2, "", ""⟩ := by
      rw [stateAt_succ, stateAt_zero,
        process_gesture_change (labC1 0) (tmC1 0) (initState (-2)) (by simp [initState, labC1])]
      rfl
    rw [h1, show labC1 1 = "fist" from rfl, show tmC1 1 = (1:ℚ) from rfl,
      process_gesture_fire "fist" 1 0 (-2) "" "" "print(\"Fist detected - Stopping execution\")"
        (by norm_num [gesture_hold_time]) (by norm_num [gesture_cooldown]) rfl]
  exact ⟨hfire, debouncer_fire_requires_hold_and_cooldown (-2) labC1 tmC1 hmono 1 hfire⟩

/-! ### The end-to-end scenario of claim C2 -/

/-- Labels of the C2 scenario stream: fist at every update. -/
def labScenario : Nat → String := fun _ => "fist"

/-- Timestamps of the C2 scenario stream: 0, 0.1, 0.35, 0.9, 1.4. -/
def tmScenario : Nat → ℚ := fun k =>
  match k with
  | 0 => 0
  | 1 => 1/10
  | 2 => 7/20
  | 3 => 9/10
  | _ => 7/5

/-- Counterexample to claim C2 as stated: if the debouncer state is created
at time 0 (`last_executed_time` is initialized to the wall-clock time of
`__init__`, which is at or after the first update time in the scenario
reading where updates start at t = 0), the update at t = 0.35 does NOT fire:
0.35 - 0 is not strictly greater than the 1.0 cooldown. The only fire of the
scenario is then the one at t = 1.4. -/
theorem scenario_from_fresh_init_no_fire_at_035 :
    firesAt 0 labScenario tmScenario 0 = false ∧
    firesAt 0 labScenario tmScenario 1 = false ∧
    firesAt 0 labScenario tmScenario 2 = false ∧
    firesAt 0 labScenario tmScenario 3 = false ∧
    firesAt 0 labScenario tmScenario 4 = true := by
  have h1 : stateAt 0 labScenario tmScenario 1 = ⟨some "fist", some 0, 0, "", ""⟩ := by
    rw [stateAt_succ, stateAt_zero,
      process_gesture_change (labScenario 0) (tmScenario 0) (initState 0)
        (by simp [initState, labScenario])]
    rfl
  have h2 : stateAt 0 labScenario tmScenario 2 = ⟨some "fist", some 0, 0, "", ""⟩ := by
    rw [stateAt_succ, h1, show labScenario 1 = "fist" from rfl,
      show tmScenario 1 = (1/10 : ℚ) from rfl,
      process_gesture_hold_fail "fist" (1/10) 0 0 "" "" (by norm_num [gesture_hold_time])]
  have h3 : stateAt 0 labScenario tmScenario 3 = ⟨some "fist", some 0, 0, "", ""⟩ := by
    rw [stateAt_succ, h2, show labScenario 2 = "fist" from rfl,
      show tmScenario 2 = (7/20 : ℚ) from rfl,
      process_gesture_cool_fail "fist" (7/20) 0 0 "" ""
        (by norm_num [gesture_hold_time]) (by norm_num [gesture_cooldown])]
  have h4 : stateAt 0 labScenario tmScenario 4 = ⟨some "fist", some 0, 0, "", ""⟩ := by
    rw [stateAt_succ, h3, show labScenario 3 = "fist" from rfl,
      show tmScenario 3 = (9/10 : ℚ) from rfl,
      process_gesture_cool_fail "fist" (9/10) 0 0 "" ""
        (by norm_num [gesture_hold_time]) (by norm_num [gesture_cooldown])]
  refine ⟨?_, ?_, ?_, ?_, ?_⟩
  · rw [firesAt_def, stateAt_zero,
      process_gesture_change (labScenario 0) (tmScenario 0) (initState 0)
        (by simp [initState, labScenario])]
  · rw [firesAt_def, h1, show labScenario 1 = "fist" from rfl,
      show tmScenario 1 = (1/10 : ℚ) from rfl,
      process_gesture_hold_fail "fist" (1/10) 0 0 "" "" (by norm_num [gesture_hold_time])]
  · rw [firesAt_def, h2, show labScenario 2 = "fist" from rfl,
      show tmScenario 2 = (7/20 : ℚ) from rfl,
      process_gesture_cool_fail "fist" (7/20) 0 0 "" ""
        (by norm_num [gesture_hold_time]) (by norm_num [gesture_cooldown])]
  · rw [firesAt_def, h3, show labScenario 3 = "fist" from rfl,
      show tmScenario 3 = (9/10 : ℚ) from rfl,
      process_gesture_cool_fail "fist" (9/10) 0 0 "" ""
        (by norm_num [gesture_hold_time]) (by norm_num [gesture_cooldown])]
  · rw [firesAt_def, h4, show labScenario 4 = "fist" from rfl,
      show tmScenario 4 = (7/5 : ℚ) from rfl,
      process_gesture_fire "fist" (7/5) 0 0 "" "" "print(\"Fist detected - Stopping execution\")"
        (by norm_num [gesture_hold_time]) (by norm_num [gesture_cooldown]) rfl]

/-- Claim C2 as amended: provided the debouncer was initialized early enough
that t = 0.35 lies strictly more than the cooldown after the init time
(0.35 - t0 > 1), the fist stream at times 0, 0.1, 0.35, 0.9, 1.4 fires
exactly at t = 0.35 and t = 1.4: not at 0 or 0.1 (hold not yet reached or
label just set), not at 0.9 (0.9 - 0.35 = 0.55 is within the cooldown), and
again at 1.4 (1.4 - 0.35 = 1.05 exceeds the cooldown). -/
theorem scenario_fires_with_early_init (t0 : ℚ)
    (h : 7/20 - t0 > gesture_cooldown) :
    firesAt t0 labScenario tmScenario 0 = false ∧
    firesAt t0 labScenario tmScenario 1 = false ∧
    firesAt t0 labScenario tmScenario 2 = true ∧
    firesAt t0 labScenario tmScenario 3 = false ∧
    firesAt t0 labScenario tmScenario 4 = true := by
  have h1 : stateAt t0 labScenario tmScenario 1 = ⟨some "fist", some 0, t0, "", ""⟩ := by
    rw [stateAt_succ, stateAt_zero,
      process_gesture_change (labScenario 0) (tmScenario 0) (initState t0)
        (by simp [initState, labScenario])]
    rfl
  have h2 : stateAt t0 labScenario tmScenario 2 = ⟨some "fist", some 0, t0, "", ""⟩ := by
    rw [stateAt_succ, h1, show labScenario 1 = "fist" from rfl,
      show tmScenario 1 = (1/10 : ℚ) from rfl,
      process_gesture_hold_fail "fist" (1/10) 0 t0 "" "" (by norm_num [gesture_hold_time])]
  have h3 : stateAt t0 labScenario tmScenario 3 =
      ⟨some "fist", some 0, 7/20,
        "" ++ "print(\"Fist detected - Stopping execution\")" ++ "\n", "fist"⟩ := by
    rw [stateAt_succ, h2, show labScenario 2 = "fist" from rfl,
      show tmScenario 2 = (7/20 : ℚ) from rfl,
      process_gesture_fire "fist" (7/20) 0 t0 "" "" "print(\"Fist detected - Stopping execution\")"
        (by norm_num [gesture_hold_time]) h rfl]
  have h4 : stateAt t0 labScenario tmScenario 4 =
      ⟨some "fist", some 0, 7/20,
        "" ++ "print(\"Fist detected - Stopping execution\")" ++ "\n", "fist"⟩ := by
    rw [stateAt_succ, h3, show labScenario 3 = "fist" from rfl,
      show tmScenario 3 = (9/10 : ℚ) from rfl,
      process_gesture_cool_fail "fist" (9/10) 0 (7/20)
        ("" ++ "print(\"Fist detected - Stopping execution\")" ++ "\n") "fist"
        (by norm_num [gesture_hold_time]) (by norm_num [gesture_cooldown])]
  refine ⟨?_, ?_, ?_, ?_, ?_⟩
  · rw [firesAt_def, stateAt_zero,
      process_gesture_change (labScenario 0) (tmScenario 0) (initState t0)
        (by simp [initState, labScenario])]
  · rw [firesAt_def, h1, show labScenario 1 = "fist" from rfl,
      show tmScenario 1 = (1/10 : ℚ) from rfl,
      process_gesture_hold_fail "fist" (1/10) 0 t0 "" "" (by norm_num [gesture_hold_time])]
  · rw [firesAt_def, h2, show labScenario 2 = "fist" from rfl,
      show tmScenario 2 = (7/20 : ℚ) from rfl,
      process_gesture_fire "fist" (7/20) 0 t0 "" "" "print(\"Fist detected - Stopping execution\")"
        (by norm_num [gesture_hold_time]) h rfl]
  · rw [firesAt_def, h3, show labScenario 3 = "fist" from rfl,
      show tmScenario 3 = (9/10 : ℚ) from rfl,
      process_gesture_cool_fail "fist" (9/10) 0 (7/20)
        ("" ++ "print(\"Fist detected - Stopping execution\")" ++ "\n") "fist"
        (by norm_num [gesture_hold_time]) (by norm_num [gesture_cooldown])]
  · rw [firesAt_def, h4, show labScenario 4 = "fist" from rfl,
      show tmScenario 4 = (7/5 : ℚ) from rfl,
      process_gesture_fire "fist" (7/5) 0 (7/20)
        ("" ++ "print(\"Fist detected - Stopping execution\")" ++ "\n") "fist"
        "print(\"Fist detected - Stopping execution\")"
        (by norm_num [gesture_hold_time]) (by norm_num [gesture_cooldown]) rfl]

/-- Witness for the amended C2 with the app initialized at time -1. -/
theorem scenario_fires_with_early_init_witness :
    firesAt (-1) labScenario tmScenario 0 = false ∧
    firesAt (-1) labScenario tmScenario 1 = false ∧
    firesAt (-1) labScenario tmScenario 2 = true ∧
    firesAt (-1) labScenario tmScenario 3 = false ∧
    firesAt (-1) labScenario tmScenario 4 = true :=
  scenario_fires_with_early_init (-1) (by norm_num [gesture_cooldown])

/-! ### Claims about the run-loop guard and the dispatcher -/

/-- A state in which the debouncer is holding the label fist since time 0. -/
def heldState : AppState :=
  { last_detected_gesture := some "fist"
    gesture_start_time := some 0
    last_executed_time := 0
    generated_code := ""
    displayed_gesture := "" }

/-- Counterexample to claim C4: a frame classified as none does not reach the
debouncer at all, because of the guard `if gesture:` in the camera loop. At a
concrete held state the update leaves the whole state unchanged: the held
label does not become none and the hold-start stamp does not become the
update time; only the no-fire half of the claim holds. -/
theorem none_label_state_untouched :
    handleFrame none 5 heldState = (heldState, false) ∧
    (handleFrame none 5 heldState).1.last_detected_gesture = some "fist" ∧
    (handleFrame none 5 heldState).1.last_detected_gesture ≠ none ∧
    ¬ (handleFrame none 5 heldState).1.gesture_start_time = some 5 := by
  refine ⟨rfl, rfl, by simp [handleFrame, heldState], ?_⟩
  show ¬ (some (0:ℚ) = some 5)
  simp only [Option.some.injEq]
  norm_num

/-- Claim C4 as amended: a frame whose classified label is none is skipped by
the camera loop: `process_gesture` is not called, the debouncer state is left
unchanged (in particular the held-label timer is not reset), and no action
fires. -/
theorem none_label_skips_debouncer (now : ℚ) (s : AppState) :
    handleFrame none now s = (s, false) := rfl

/-- Claim C9: when the label victory fires, the text appended to the
accumulated program buffer is exactly the literal conditional snippet of the
table, followed by the trailing newline separator. -/
theorem victory_snippet_appended (s : AppState) (now st : ℚ)
    (hlast : s.last_detected_gesture = some "victory")
    (hstart : s.gesture_start_time = some st)
    (hh : now - st ≥ gesture_hold_time)
    (hc : now - s.last_executed_time > gesture_cooldown) :
    (process_gesture "victory" now s).2 = true ∧
    (process_gesture "victory" now s).1.generated_code =
      s.generated_code ++ "x = 10\nif x > 5:\n    print(\"x is greater than 5\")" ++ "\n" := by
  obtain ⟨ld, gs, le, gc, dg⟩ := s
  simp only at hlast hstart hc ⊢
  subst hlast; subst hstart
  rw [process_gesture_fire "victory" now st le gc dg
    "x = 10\nif x > 5:\n    print(\"x is greater than 5\")" hh hc rfl]
  exact ⟨rfl, rfl⟩

/-- Witness for C9: a concrete held victory state in which the update fires
and appends the literal snippet. -/
theorem victory_snippet_appended_witness :
    (process_gesture "victory" (1/2)
      ⟨some "victory", some 0, -2, "", ""⟩).2 = true ∧
    (process_gesture "victory" (1/2)
      ⟨some "victory", some 0, -2, "", ""⟩).1.generated_code =
      "" ++ "x = 10\nif x > 5:\n    print(\"x is greater than 5\")" ++ "\n" :=
  victory_snippet_appended ⟨some "victory", some 0, -2, "", ""⟩ (1/2) 0 rfl rfl
    (by norm_num [gesture_hold_time]) (by norm_num [gesture_cooldown])

/-- Claim C10: a fire does not reset the held-label timer; while the mapped
label `g` stays held, the update at `t1` fires, updates between `t1` and the
end of the cooldown window change nothing, and the first update strictly
beyond the cooldown fires again. -/
theorem fire_does_not_reset_hold_timer (s : AppState) (g : String) (st t1 t2 : ℚ)
    (hlast : s.last_detected_gesture = some g)
    (hstart : s.gesture_start_time = some st)
    (code : String) (hmap : gesture_code_mapping g = some code)
    (hhold : t1 - st ≥ gesture_hold_time)
    (hcool : t1 - s.last_executed_time > gesture_cooldown)
    (ht12 : t1 ≤ t2) (hcool2 : t2 - t1 > gesture_cooldown) :
    (process_gesture g t1 s).2 = true ∧
    (process_gesture g t1 s).1.gesture_start_time = some st ∧
    (process_gesture g t1 s).1.last_detected_gesture = some g ∧
    (∀ t, t1 ≤ t → ¬ t - t1 > gesture_cooldown →
      process_gesture g t (process_gesture g t1 s).1 = ((process_gesture g t1 s).1, false)) ∧
    (process_gesture g t2 (process_gesture g t1 s).1).2 = true := by
  obtain ⟨ld, gs, le, gc, dg⟩ := s
  simp only at hlast hstart hcool ⊢
  subst hlast; subst hstart
  rw [process_gesture_fire g t1 st le gc dg code hhold hcool hmap]
  refine ⟨rfl, rfl, rfl, ?_, ?_⟩
  · intro t ht hnc
    exact process_gesture_cool_fail g t st t1 (gc ++ code ++ "\n") g
      (by linarith [hhold]) hnc
  · rw [process_gesture_fire g t2 st t1 (gc ++ code ++ "\n") g code
      (by linarith [hhold]) hcool2 hmap]

/-- Witness for C10: holding fist, a fire at time 1 and a second fire at
time 21/10, with an intermediate update at 3/2 changing nothing. -/
theorem fire_does_not_reset_hold_timer_witness :
    (process_gesture "fist" 1 ⟨some "fist", some 0, -2, "", ""⟩).2 = true ∧
    (process_gesture "fist" 1 ⟨some "fist", some 0, -2, "", ""⟩).1.gesture_start_time = some 0 ∧
    (process_gesture "fist" 1
      ⟨some "fist", some 0, -2, "", ""⟩).1.last_detected_gesture = some "fist" ∧
    (∀ t, 1 ≤ t → ¬ t - 1 > gesture_cooldown →
      process_gesture "fist" t (process_gesture "fist" 1 ⟨some "fist", some 0, -2, "", ""⟩).1 =
        ((process_gesture "fist" 1 ⟨some "fist", some 0, -2, "", ""⟩).1, false)) ∧
    (process_gesture "fist" (21/10)
      (process_gesture "fist" 1 ⟨some "fist", some 0, -2, "", ""⟩).1).2 = true :=
  fire_does_not_reset_hold_timer ⟨some "fist", some 0, -2, "", ""⟩ "fist" 0 1 (21/10)
    rfl rfl "print(\"Fist detected - Stopping execution\")" rfl
    (by norm_num [gesture_hold_time]) (by norm_num [gesture_cooldown])
    (by norm_num) (by norm_num [gesture_cooldown])

end HandyCodes
